import Mathlib

/-!
Shallow embedding of the buildbot per-builder dispatcher:
`src/master/buildbot/process/builder.py` and
`src/master/buildbot/data/base.py`.

External collaborators (database, message queue, remote worker, status
sink) are modelled by explicit outcome parameters and by event traces;
the in-memory builder state is passed explicitly.
-/

namespace Buildbot

/-- Result codes (from `buildbot.status.builder`, which is outside the
sources; the dispatcher only compares against `RETRY`). -/
def SUCCESS : Nat := 0

def WARNINGS : Nat := 1

def FAILURE : Nat := 2

def SKIPPED : Nat := 3

def EXCEPTION : Nat := 4

def RETRY : Nat := 5

/-- States of a SlaveBuilder slot (`buildbot.process.slavebuilder`).
Modelled from the spec: the slavebuilder module is not under the sources;
§4.1 gives the state set ATTACHING / IDLE / PINGING / BUILDING plus a
terminal DETACHED. -/
inductive SBState
  | ATTACHING
  | IDLE
  | PINGING
  | BUILDING
  | DETACHED
deriving DecidableEq, Repr

/-- A build request as the dispatcher consumes it: `br.id`, `br.bsid`,
`br.buildername` are the only fields read by `builder.py`. -/
structure BuildRequest where
  id : Nat
  bsid : Nat
  buildername : String
deriving DecidableEq, Repr

/-- One (builder, worker) slot: `slavebuilder.SlaveBuilder`. The worker
identity is its slavename; `state` is the slot state. -/
structure SlaveBuilderSlot where
  slavename : String
  state : SBState
deriving DecidableEq, Repr

/-- A row of the builds table as written by
`master.db.builds.addBuild(builderid=..., buildrequestid=...,
buildslaveid=..., masterid=..., state_strings=['created'])`. -/
structure BuildRow where
  builderid : Nat
  buildrequestid : Nat
  buildslaveid : Nat
  masterid : Nat
  state_strings : List String
deriving DecidableEq, Repr

/-- The mutable per-builder state of `Builder.__init__` /
`Builder.reconfigService`: the `building` and `old_building` collections
of in-flight builds (identified by ids; `nextBuildId` supplies fresh
identities for newly constructed Build objects), the `attaching_slaves`
and `slaves` slot collections, the set of request ids this master has
claimed in the request store, the persisted build rows, the
`builder_status` allocation flag, whether the chosen slave currently
holds locks, and the service `running` flag. -/
structure BuilderState where
  running : Bool
  builder_status : Bool
  building : List Nat
  old_building : List Nat
  attaching_slaves : List SlaveBuilderSlot
  slaves : List SlaveBuilderSlot
  claimed : List Nat
  builds_db : List BuildRow
  slaveLocksHeld : Bool
  nextBuildId : Nat
deriving DecidableEq, Repr

/-- `slavebuilder.buildStarted()` / `buildFinished()` as observed through
the builder's `slaves` collection: set the state of the slots referencing
the worker `w`. Modelled from the spec: §4.1, explicit transitions
IDLE ↔ BUILDING. -/
def setSlotState (w : String) (st : SBState) (l : List SlaveBuilderSlot) :
    List SlaveBuilderSlot :=
  l.map (fun sl => if sl.slavename = w then { sl with state := st } else sl)

/-- Outcomes of the external calls made during `_startBuildFor`: a
`false` component covers both an exception and a falsy return of the
corresponding call (`slavebuilder.prepare`, `slavebuilder.ping`,
`conn.remoteStartBuild`, `db.builds.addBuild`), and `conn_alive` is the
post-persist `slavebuilder.slave.conn` re-check. -/
structure StartEnv where
  prepare_ok : Bool
  ping_ok : Bool
  remoteStart_ok : Bool
  addBuild_ok : Bool
  conn_alive : Bool
deriving DecidableEq, Repr

/-- Externally visible interactions of `_startBuildFor`, in order. -/
inductive StartEv
  | bigStatusUpdate
  | prepareCall
  | pingCall
  | remoteStartBuildCall (buildername : String)
  | statusNewBuild
  | addBuildCall (row : BuildRow)
  | buildStartedMsg (brid : Nat) (buildername : String)
deriving DecidableEq, Repr

/-- Result of `maybeStartBuild` / `_startBuildFor`: the returned boolean,
the builder state after the call, and the trace of external
interactions. -/
structure StartResult where
  started : Bool
  state : BuilderState
  trace : List StartEv
deriving DecidableEq, Repr

/-- `run_cleanups`: pop the cleanup stack and run each entry, last pushed
first (the Python closure pops from the end of the `cleanups` list). -/
def run_cleanups (cs : List (BuilderState → BuilderState)) (s : BuilderState) :
    BuilderState :=
  cs.foldr (fun f s => f s) s

/-- `Builder._startBuildFor(slavebuilder, buildrequests)`.

The linear protocol with its cleanup stack: construct the Build and
append it to `building` (inverse: remove it), `prepare`, `ping`,
`buildStarted` (inverse: `buildFinished`), `remoteStartBuild`, allocate
the status build, persist the build row for `build.requests[-1]` (an
empty request list raises IndexError inside the same `try`), re-check
the connection, publish `build_started`, and hand off. Each failing step
runs the cleanup stack and returns false. -/
def startBuildFor (bname : String) (builderid masterid : Nat) (w : String)
    (buildslaveid : Nat) (breqs : List BuildRequest) (env : StartEnv)
    (s : BuilderState) : StartResult :=
  let cleanups : List (BuilderState → BuilderState) :=
    [fun s => s, fun s => { s with slaveLocksHeld := false }]
  let buildId := s.nextBuildId
  let s1 := { s with nextBuildId := s.nextBuildId + 1,
                     building := s.building ++ [buildId] }
  let cleanups := cleanups ++
    ([fun s => { s with building := s.building.erase buildId }] :
      List (BuilderState → BuilderState))
  let trace := [StartEv.bigStatusUpdate, StartEv.prepareCall]
  if !env.prepare_ok then
    { started := false, state := run_cleanups cleanups s1, trace := trace }
  else
    let trace := trace ++ [StartEv.pingCall]
    if !env.ping_ok then
      { started := false, state := run_cleanups cleanups s1, trace := trace }
    else
      let s2 := { s1 with slaves := setSlotState w SBState.BUILDING s1.slaves }
      let cleanups := cleanups ++
        ([fun s => { s with slaves := setSlotState w SBState.IDLE s.slaves }] :
          List (BuilderState → BuilderState))
      let trace := trace ++ [StartEv.remoteStartBuildCall bname]
      if !env.remoteStart_ok then
        { started := false, state := run_cleanups cleanups s2, trace := trace }
      else
        let trace := trace ++ [StartEv.statusNewBuild]
        match breqs.getLast? with
        | none =>
          { started := false, state := run_cleanups cleanups s2, trace := trace }
        | some req =>
          if !env.addBuild_ok then
            { started := false, state := run_cleanups cleanups s2, trace := trace }
          else
            let row : BuildRow :=
              { builderid := builderid, buildrequestid := req.id,
                buildslaveid := buildslaveid, masterid := masterid,
                state_strings := ["created"] }
            let s3 := { s2 with builds_db := s2.builds_db ++ [row] }
            let trace := trace ++ [StartEv.addBuildCall row]
            if !env.conn_alive then
              { started := false, state := run_cleanups cleanups s3, trace := trace }
            else
              { started := true, state := s3,
                trace := trace ++ [StartEv.buildStartedMsg req.id bname,
                                   StartEv.bigStatusUpdate] }

/-- `Builder.maybeStartBuild(slavebuilder, breqs)`: gate on `running`,
then delegate to `_startBuildFor`. -/
def maybeStartBuild (bname : String) (builderid masterid : Nat) (w : String)
    (buildslaveid : Nat) (breqs : List BuildRequest) (env : StartEnv)
    (s : BuilderState) : StartResult :=
  if !s.running then { started := false, state := s, trace := [] }
  else startBuildFor bname builderid masterid w buildslaveid breqs env s

/-- Body of the `buildrequest.*.complete` message produced by
`_notify_completions`. -/
structure BRCompleteMsg where
  brid : Nat
  bsid : Nat
  buildername : String
  builderid : Nat
  complete_at : Nat
  results : Nat
deriving DecidableEq, Repr

/-- External interactions of `buildFinished` and its helpers, in order.
`msgBuildrequestsUnclaimed` is the per-request unclaimed signal the code
means to emit through `_msg_buildrequests_unclaimed`; since that method
does not exist, the model never produces it and records the logged
AttributeError as `errorLogged` instead. -/
inductive FinEv
  | finishBuildCall (bid : Nat) (results : Nat)
  | completeBuildRequestsCall (brids : List Nat) (results : Nat)
  | unclaimBuildRequestsCall (brids : List Nat)
  | mqProduce (key : List String) (msg : BRCompleteMsg)
  | maybeBuildsetCompleteCall (bsid : Nat)
  | msgBuildrequestsUnclaimed (brid : Nat)
  | errorLogged (what : String)
deriving DecidableEq, Repr

/-- The `seen_bsids` loop of `_notify_completions`: the bsids of the
requests, first occurrence kept, occurrences whose bsid is already in
`seen` skipped. -/
def distinctBsids (seen : List Nat) : List BuildRequest → List Nat
  | [] => []
  | br :: rest =>
    if br.bsid ∈ seen then distinctBsids seen rest
    else br.bsid :: distinctBsids (br.bsid :: seen) rest

/-- `Builder._notify_completions(requests, results, complete_at_epoch)`:
one `('buildrequest', str(bsid), str(builderid), str(brid), 'complete')`
message per request, then one `maybeBuildsetComplete` per distinct
bsid. -/
def notify_completions (requests : List BuildRequest)
    (results builderid complete_at_epoch : Nat) : List FinEv :=
  requests.map (fun br =>
    FinEv.mqProduce
      ["buildrequest", toString br.bsid, toString builderid,
       toString br.id, "complete"]
      { brid := br.id, bsid := br.bsid, buildername := br.buildername,
        builderid := builderid, complete_at := complete_at_epoch,
        results := results })
  ++ (distinctBsids [] requests).map FinEv.maybeBuildsetCompleteCall

/-- `Builder._resubmit_buildreqs(build)`: unclaim all of the build's
requests; the `notify` callback then calls
`self._msg_buildrequests_unclaimed(build.requests)`, a method that does
not exist (the source marks it `XXX method does not exist`), so an
AttributeError is raised and swallowed by the errback that logs
`'while resubmitting a build request'`; no unclaimed signal is
emitted. -/
def resubmit_buildreqs (requests : List BuildRequest) : List FinEv :=
  [FinEv.unclaimBuildRequestsCall (requests.map (fun br => br.id)),
   FinEv.errorLogged "while resubmitting a build request"]

/-- `Builder.buildFinished(build, sb, bids)`: record `finishBuild`,
remove the build from `building`, then branch on `results`: RETRY
resubmits through `_resubmit_buildreqs`; any other terminal result
completes the requests and runs `_notify_completions`. Lock release and
the status refresh act on the state (`slaveLocksHeld`), not the db/mq
trace. -/
def buildFinished (requests : List BuildRequest) (results bid builderid
    complete_at_epoch buildId : Nat) (s : BuilderState) :
    BuilderState × List FinEv :=
  let s := { s with building := s.building.erase buildId,
                    slaveLocksHeld := false }
  if results = RETRY then
    (s, FinEv.finishBuildCall bid results :: resubmit_buildreqs requests)
  else
    (s, FinEv.finishBuildCall bid results ::
        FinEv.completeBuildRequestsCall (requests.map (fun br => br.id)) results ::
        notify_completions requests results builderid complete_at_epoch)

/-- The slice of the new configuration that `reconfigService` reads for
worker pruning. -/
structure BuilderConfig where
  name : String
  slavenames : List String
deriving DecidableEq, Repr

/-- `Builder.reconfigService(new_config)` (state part): allocate the
status object on first reconfig and keep only the attached `slaves`
whose slavename is in the new configuration's `slavenames`;
`attaching_slaves` is left as is. -/
def reconfigService (cfg : BuilderConfig) (s : BuilderState) : BuilderState :=
  { s with builder_status := true,
           slaves := s.slaves.filter (fun sl => sl.slavename ∈ cfg.slavenames) }

/-- Status events emitted by the attach/detach paths
(`builder_status.addPointEvent`). -/
inductive AttEv
  | connectEvent (slavename : String)
  | failedConnectEvent (slavename : String)
  | disconnectEvent (slavename : String)
deriving DecidableEq, Repr

/-- `Builder.attached(slave, commands)`: if any slot in
`attaching_slaves + slaves` already references this worker, succeed with
no side effect; otherwise allocate a SlaveBuilder, run the handshake
(outcome `attach_ok`): `_attached` emits a connect event and moves the
slot from `attaching_slaves` to `slaves`; `_not_attached` emits a
failed-connect event and leaves the slot where it is. -/
def attached (slave : String) (attach_ok : Bool) (s : BuilderState) :
    Bool × BuilderState × List AttEv :=
  if (s.attaching_slaves ++ s.slaves).any (fun sl => sl.slavename = slave) then
    (true, s, [])
  else if attach_ok then
    (true, { s with slaves := s.slaves ++ [⟨slave, SBState.IDLE⟩] },
     [AttEv.connectEvent slave])
  else
    (false,
     { s with attaching_slaves :=
         s.attaching_slaves ++ [⟨slave, SBState.ATTACHING⟩] },
     [AttEv.failedConnectEvent slave])

/-- `Builder.detached(slave)`: find the slot referencing the worker in
`attaching_slaves + slaves`; if none, log a WEIRD message and return
with nothing changed; otherwise remove it from both collections, emit
the disconnect event and inform the slot. -/
def detached (slave : String) (s : BuilderState) :
    BuilderState × List AttEv :=
  match (s.attaching_slaves ++ s.slaves).find?
      (fun sl => sl.slavename = slave) with
  | none => (s, [])
  | some sb =>
    ({ s with attaching_slaves := s.attaching_slaves.erase sb,
              slaves := s.slaves.erase sb },
     [AttEv.disconnectEvent slave])

/-- Outcome of `updateBigStatus`: the states pushed to
`builder_status.setBigState` and whether an exception escaped to the
caller. -/
structure StatusOutcome where
  pushed : List String
  raised : Bool
deriving DecidableEq, Repr

/-- `Builder.updateBigStatus()`: inside a catch-all, return if
`builder_status` is not yet allocated, else push `"offline"` when
`slaves` is empty, `"building"` when `building` or `old_building` is
nonempty, `"idle"` otherwise. `sinkRaises` models `setBigState`
raising; the exception is caught and logged, so nothing is pushed and
nothing propagates. -/
def updateBigStatus (sinkRaises : Bool) (s : BuilderState) : StatusOutcome :=
  if !s.builder_status then { pushed := [], raised := false }
  else if sinkRaises then { pushed := [], raised := false }
  else if s.slaves = [] then { pushed := ["offline"], raised := false }
  else if s.building ≠ [] ∨ s.old_building ≠ [] then
    { pushed := ["building"], raised := false }
  else { pushed := ["idle"], raised := false }

/-- The static data of a `data.base.ResourceType` subclass: its `name`
and `keyFields`. -/
structure ResourceType where
  name : String
  keyFields : List String
deriving DecidableEq, Repr

/-- `ResourceType.produceEvent(msg, event)`: publish `msg` on the
routing key `(self.name,) + tuple(str(msg[k]) for k in self.keyFields)
+ (event,)`. The message is a field lookup; `str` on its (integer)
values is `toString`. Returns the `(routingKey, msg)` pair handed to
`master.mq.produce`. -/
def produceEvent (rt : ResourceType) (msg : String → Nat) (event : String) :
    List String × (String → Nat) :=
  ((rt.name :: rt.keyFields.map (fun k => toString (msg k))) ++ [event], msg)

/-! ### Helper lemmas -/

theorem setSlotState_overwrite (w : String) (st1 st2 : SBState)
    (l : List SlaveBuilderSlot) :
    setSlotState w st2 (setSlotState w st1 l) = setSlotState w st2 l := by
  induction l with
  | nil => rfl
  | cons a t ih =>
    simp only [setSlotState, List.map_cons] at *
    by_cases hw : a.slavename = w <;> simp [hw, ih]

theorem erase_append_self (l : List Nat) (n : Nat) (h : l.count n = 0) :
    (l ++ [n]).erase n = l := by
  have hn : n ∉ l := List.count_eq_zero.mp h
  rw [List.erase_append_right _ hn, List.erase_cons_head, List.append_nil]

theorem mem_distinctBsids (b : Nat) (l : List BuildRequest) :
    ∀ seen : List Nat,
      b ∈ distinctBsids seen l ↔ b ∉ seen ∧ b ∈ l.map (fun br => br.bsid) := by
  induction l with
  | nil => intro seen; simp [distinctBsids]
  | cons br rest ih =>
    intro seen
    simp only [distinctBsids, List.map_cons, List.mem_cons]
    split_ifs with hs
    · rw [ih seen]
      constructor
      · rintro ⟨hns, hm⟩; exact ⟨hns, Or.inr hm⟩
      · rintro ⟨hns, hm | hm⟩
        · exact absurd (hm ▸ hs) hns
        · exact ⟨hns, hm⟩
    · simp only [List.mem_cons, ih (br.bsid :: seen), List.mem_cons]
      constructor
      · rintro (hb | ⟨hns, hm⟩)
        · exact ⟨hb ▸ hs, Or.inl hb⟩
        · exact ⟨fun hc => hns (Or.inr hc), Or.inr hm⟩
      · rintro ⟨hns, hb | hm⟩
        · exact Or.inl hb
        · by_cases hbb : b = br.bsid
          · exact Or.inl hbb
          · exact Or.inr ⟨fun hc => by
              rcases hc with hc | hc
              · exact hbb hc
              · exact hns hc, hm⟩

theorem distinctBsids_nodup (l : List BuildRequest) :
    ∀ seen : List Nat, (distinctBsids seen l).Nodup := by
  induction l with
  | nil => intro seen; simp [distinctBsids]
  | cons br rest ih =>
    intro seen
    simp only [distinctBsids]
    split_ifs with hs
    · exact ih seen
    · refine List.Nodup.cons ?_ (ih (br.bsid :: seen))
      intro hmem
      exact ((mem_distinctBsids br.bsid rest (br.bsid :: seen)).mp hmem).1
        (List.mem_cons_self _ _)

/-! ### Claims -/

/-- C6 counterexample: after a reconfigure whose allow-list is empty, a
slot in the attaching collection whose worker name is not in the
allow-list is still held by the builder, contradicting the claim that
such slots are dropped from both collections. -/
theorem reconfigService_attaching_kept_cex :
    (reconfigService { name := "b1", slavenames := [] }
      { running := true, builder_status := true, building := [],
        old_building := [], attaching_slaves := [⟨"w1", SBState.ATTACHING⟩],
        slaves := [], claimed := [], builds_db := [], slaveLocksHeld := false,
        nextBuildId := 0 }).attaching_slaves = [⟨"w1", SBState.ATTACHING⟩] ∧
    "w1" ∉ (BuilderConfig.mk "b1" []).slavenames := by
  constructor
  · rfl
  · simp

/-- C6 (amended): after reconfigure, a slot is in the available
(`slaves`) collection iff it was there before and its worker name is in
the new configuration's allow-list — slots with names outside the
allow-list are dropped from `slaves` and the rest retained — while the
attaching collection is not pruned at all. -/
theorem reconfigService_prunes_available (cfg : BuilderConfig)
    (s : BuilderState) :
    (∀ sl : SlaveBuilderSlot,
      sl ∈ (reconfigService cfg s).slaves ↔
        sl ∈ s.slaves ∧ sl.slavename ∈ cfg.slavenames) ∧
    (reconfigService cfg s).attaching_slaves = s.attaching_slaves := by
  refine ⟨fun sl => ?_, rfl⟩
  simp [reconfigService, List.mem_filter]

/-- C7: calling `attached` with a worker already referenced by a slot in
`attaching_slaves` or `slaves` returns success with the state and the
event list unchanged, whatever the handshake outcome would have been —
so repeated `attached` calls with the same worker leave the registry
exactly as the first successful one did. -/
theorem attached_duplicate_noop (w : String) (ok : Bool) (s : BuilderState)
    (h : (s.attaching_slaves ++ s.slaves).any
      (fun sl => sl.slavename = w) = true) :
    attached w ok s = (true, s, []) := by
  simp only [attached, h, if_true]

/-- C7 witness: a builder with worker "w1" already attached; a second
`attached("w1")` (even one whose handshake would fail) is a no-op. -/
theorem attached_duplicate_noop_witness :
    (((BuilderState.mk true true [] [] [] [⟨"w1", SBState.IDLE⟩] [] [] false 0
        ).attaching_slaves ++
      (BuilderState.mk true true [] [] [] [⟨"w1", SBState.IDLE⟩] [] [] false 0
        ).slaves).any (fun sl => sl.slavename = "w1") = true) ∧
    attached "w1" false
      (BuilderState.mk true true [] [] [] [⟨"w1", SBState.IDLE⟩] [] [] false 0) =
      (true,
       BuilderState.mk true true [] [] [] [⟨"w1", SBState.IDLE⟩] [] [] false 0,
       []) :=
  ⟨by decide, attached_duplicate_noop "w1" false _ (by decide)⟩

/-- C9: `detached` for a worker with no slot in either collection
returns with the state unchanged and no disconnect event (the code only
logs a WEIRD message), and being a total function it cannot raise. -/
theorem detached_unknown_worker_noop (w : String) (s : BuilderState)
    (h : (s.attaching_slaves ++ s.slaves).any
      (fun sl => sl.slavename = w) = false) :
    detached w s = (s, []) := by
  unfold detached
  have hf : (s.attaching_slaves ++ s.slaves).find?
      (fun sl => decide (sl.slavename = w)) = none := by
    rw [List.find?_eq_none]
    intro x hx
    have := List.any_eq_false.mp h x hx
    simpa using this
  rw [hf]

/-- C9 witness: a builder holding slots for "w1" and "w2"; `detached`
for the unknown worker "w3" changes nothing and emits nothing. -/
theorem detached_unknown_worker_noop_witness :
    (((BuilderState.mk true true [] [] [⟨"w1", SBState.ATTACHING⟩]
        [⟨"w2", SBState.IDLE⟩] [] [] false 0).attaching_slaves ++
      (BuilderState.mk true true [] [] [⟨"w1", SBState.ATTACHING⟩]
        [⟨"w2", SBState.IDLE⟩] [] [] false 0).slaves).any
        (fun sl => sl.slavename = "w3") = false) ∧
    detached "w3"
      (BuilderState.mk true true [] [] [⟨"w1", SBState.ATTACHING⟩]
        [⟨"w2", SBState.IDLE⟩] [] [] false 0) =
      (BuilderState.mk true true [] [] [⟨"w1", SBState.ATTACHING⟩]
        [⟨"w2", SBState.IDLE⟩] [] [] false 0, []) :=
  ⟨by decide, detached_unknown_worker_noop "w3" _ (by decide)⟩

/-- C10: `updateBigStatus` never raises to its caller (even when the
status sink itself raises, the exception is caught), pushes nothing
while `builder_status` is unallocated, and otherwise pushes exactly one
of "offline" (no slaves), "building" (some in-flight build in `building`
or `old_building`), or "idle". -/
theorem updateBigStatus_never_raises (b : Bool) (s : BuilderState) :
    (updateBigStatus b s).raised = false ∧
    (updateBigStatus false s).pushed =
      (if s.builder_status then
        [if s.slaves = [] then "offline"
         else if s.building ≠ [] ∨ s.old_building ≠ [] then "building"
         else "idle"]
       else []) := by
  constructor
  · unfold updateBigStatus; split_ifs <;> rfl
  · unfold updateBigStatus
    cases hb : s.builder_status
    · simp [hb]
    · simp only [hb, Bool.not_true, Bool.false_eq_true, reduceIte]
      split_ifs <;> simp_all

/-- C8: `produceEvent` publishes on a routing key that starts with the
resource name, ends with the event name, and carries the stringified
key-field values of the message, in key-field order, in between. -/
theorem produceEvent_routing_key (rt : ResourceType) (msg : String → Nat)
    (event : String) :
    (produceEvent rt msg event).1.head? = some rt.name ∧
    (produceEvent rt msg event).1.getLast? = some event ∧
    (produceEvent rt msg event).1 =
      (rt.name :: rt.keyFields.map (fun k => toString (msg k))) ++ [event] := by
  refine ⟨rfl, ?_, rfl⟩
  show ((rt.name :: rt.keyFields.map (fun k => toString (msg k)))
    ++ [event]).getLast? = some event
  rw [List.getLast?_concat]

/-- C1: whenever `maybeStartBuild` returns false — whichever step failed
— the `building`, `old_building`, `attaching_slaves` and `slaves`
collections and the set of claimed request ids are identical to their
pre-call values: every committed side effect was undone by the cleanup
stack (run last-pushed-first by `run_cleanups`). Hypotheses: the slots
for the chosen worker are IDLE (it was selected from the available
workers) and the fresh build identity is not already in `building`. -/
theorem maybeStartBuild_false_frame (bname : String) (builderid masterid : Nat)
    (w : String) (buildslaveid : Nat) (breqs : List BuildRequest)
    (env : StartEnv) (s : BuilderState)
    (hidle : setSlotState w SBState.IDLE s.slaves = s.slaves)
    (hfresh : s.building.count s.nextBuildId = 0)
    (hfalse : (maybeStartBuild bname builderid masterid w buildslaveid breqs
      env s).started = false) :
    (maybeStartBuild bname builderid masterid w buildslaveid breqs env
      s).state.building = s.building ∧
    (maybeStartBuild bname builderid masterid w buildslaveid breqs env
      s).state.old_building = s.old_building ∧
    (maybeStartBuild bname builderid masterid w buildslaveid breqs env
      s).state.attaching_slaves = s.attaching_slaves ∧
    (maybeStartBuild bname builderid masterid w buildslaveid breqs env
      s).state.slaves = s.slaves ∧
    (maybeStartBuild bname builderid masterid w buildslaveid breqs env
      s).state.claimed = s.claimed := by
  have herase := erase_append_self s.building s.nextBuildId hfresh
  unfold maybeStartBuild at hfalse ⊢
  by_cases hrun : s.running
  · rcases env with ⟨p, pi, r, a, c⟩
    unfold startBuildFor at hfalse ⊢
    cases hbl : breqs.getLast? <;>
      cases p <;> cases pi <;> cases r <;> cases a <;> cases c <;>
      simp_all [run_cleanups, setSlotState_overwrite, hidle, herase]
  · simp_all

/-- C1 witness: a running builder with an IDLE worker "w1" and one
in-flight build; the prepare step fails, `maybeStartBuild` returns
false and every collection is as before the call. -/
theorem maybeStartBuild_false_frame_witness :
    setSlotState "w1" SBState.IDLE
      (BuilderState.mk true true [0] [] [] [SlaveBuilderSlot.mk "w1"
        SBState.IDLE] [42] [] false 1).slaves =
      (BuilderState.mk true true [0] [] [] [SlaveBuilderSlot.mk "w1"
        SBState.IDLE] [42] [] false 1).slaves ∧
    (BuilderState.mk true true [0] [] [] [SlaveBuilderSlot.mk "w1"
      SBState.IDLE] [42] [] false 1).building.count
      (BuilderState.mk true true [0] [] [] [SlaveBuilderSlot.mk "w1"
        SBState.IDLE] [42] [] false 1).nextBuildId = 0 ∧
    (maybeStartBuild "b" 1 2 "w1" 5 [BuildRequest.mk 42 7 "c"]
      (StartEnv.mk false true true true true)
      (BuilderState.mk true true [0] [] [] [SlaveBuilderSlot.mk "w1"
        SBState.IDLE] [42] [] false 1)).started = false ∧
    ((maybeStartBuild "b" 1 2 "w1" 5 [BuildRequest.mk 42 7 "c"]
      (StartEnv.mk false true true true true)
      (BuilderState.mk true true [0] [] [] [SlaveBuilderSlot.mk "w1"
        SBState.IDLE] [42] [] false 1)).state.building =
      (BuilderState.mk true true [0] [] [] [SlaveBuilderSlot.mk "w1"
        SBState.IDLE] [42] [] false 1).building ∧
    (maybeStartBuild "b" 1 2 "w1" 5 [BuildRequest.mk 42 7 "c"]
      (StartEnv.mk false true true true true)
      (BuilderState.mk true true [0] [] [] [SlaveBuilderSlot.mk "w1"
        SBState.IDLE] [42] [] false 1)).state.old_building =
      (BuilderState.mk true true [0] [] [] [SlaveBuilderSlot.mk "w1"
        SBState.IDLE] [42] [] false 1).old_building ∧
    (maybeStartBuild "b" 1 2 "w1" 5 [BuildRequest.mk 42 7 "c"]
      (StartEnv.mk false true true true true)
      (BuilderState.mk true true [0] [] [] [SlaveBuilderSlot.mk "w1"
        SBState.IDLE] [42] [] false 1)).state.attaching_slaves =
      (BuilderState.mk true true [0] [] [] [SlaveBuilderSlot.mk "w1"
        SBState.IDLE] [42] [] false 1).attaching_slaves ∧
    (maybeStartBuild "b" 1 2 "w1" 5 [BuildRequest.mk 42 7 "c"]
      (StartEnv.mk false true true true true)
      (BuilderState.mk true true [0] [] [] [SlaveBuilderSlot.mk "w1"
        SBState.IDLE] [42] [] false 1)).state.slaves =
      (BuilderState.mk true true [0] [] [] [SlaveBuilderSlot.mk "w1"
        SBState.IDLE] [42] [] false 1).slaves ∧
    (maybeStartBuild "b" 1 2 "w1" 5 [BuildRequest.mk 42 7 "c"]
      (StartEnv.mk false true true true true)
      (BuilderState.mk true true [0] [] [] [SlaveBuilderSlot.mk "w1"
        SBState.IDLE] [42] [] false 1)).state.claimed =
      (BuilderState.mk true true [0] [] [] [SlaveBuilderSlot.mk "w1"
        SBState.IDLE] [42] [] false 1).claimed) :=
  ⟨by decide, by decide, by decide,
   maybeStartBuild_false_frame "b" 1 2 "w1" 5 [BuildRequest.mk 42 7 "c"]
     (StartEnv.mk false true true true true)
     (BuilderState.mk true true [0] [] [] [SlaveBuilderSlot.mk "w1"
       SBState.IDLE] [42] [] false 1)
     (by decide) (by decide) (by decide)⟩

/-- C4 counterexample: a running builder given an empty request list is
not rejected at the gate — the call returns false, but only after
`prepare`, `ping` and `remoteStartBuild` were all issued to the worker
(the start fails at the persist step, where `build.requests[-1]`
raises), contradicting the claim that no worker interaction happens. -/
theorem maybeStartBuild_empty_not_gated_cex :
    (maybeStartBuild "b" 1 2 "w1" 5 [] (StartEnv.mk true true true true true)
      (BuilderState.mk true true [] [] [] [SlaveBuilderSlot.mk "w1"
        SBState.IDLE] [] [] false 0)).started = false ∧
    StartEv.prepareCall ∈
      (maybeStartBuild "b" 1 2 "w1" 5 [] (StartEnv.mk true true true true true)
        (BuilderState.mk true true [] [] [] [SlaveBuilderSlot.mk "w1"
          SBState.IDLE] [] [] false 0)).trace ∧
    StartEv.pingCall ∈
      (maybeStartBuild "b" 1 2 "w1" 5 [] (StartEnv.mk true true true true true)
        (BuilderState.mk true true [] [] [] [SlaveBuilderSlot.mk "w1"
          SBState.IDLE] [] [] false 0)).trace ∧
    StartEv.remoteStartBuildCall "b" ∈
      (maybeStartBuild "b" 1 2 "w1" 5 [] (StartEnv.mk true true true true true)
        (BuilderState.mk true true [] [] [] [SlaveBuilderSlot.mk "w1"
          SBState.IDLE] [] [] false 0)).trace := by
  decide

/-- C4 (amended): an empty request list makes `maybeStartBuild` return
false with no build row persisted, but the rejection happens only at the
persist step: on a running builder the worker has already been sent the
prepare call (and, had it succeeded, ping and remoteStartBuild). -/
theorem maybeStartBuild_empty_returns_false (bname : String)
    (builderid masterid : Nat) (w : String) (buildslaveid : Nat)
    (breqs : List BuildRequest) (env : StartEnv) (s : BuilderState)
    (hempty : breqs = []) (hrun : s.running = true) :
    (maybeStartBuild bname builderid masterid w buildslaveid breqs env
      s).started = false ∧
    (maybeStartBuild bname builderid masterid w buildslaveid breqs env
      s).state.builds_db = s.builds_db ∧
    StartEv.prepareCall ∈
      (maybeStartBuild bname builderid masterid w buildslaveid breqs env
        s).trace := by
  subst hempty
  rcases env with ⟨p, pi, r, a, c⟩
  unfold maybeStartBuild startBuildFor
  cases p <;> cases pi <;> cases r <;> cases a <;> cases c <;>
    simp_all [run_cleanups]

/-- C4 amended witness: empty request list on a running builder with a
healthy worker: false is returned, nothing is persisted, and the worker
was contacted. -/
theorem maybeStartBuild_empty_returns_false_witness :
    ([] : List BuildRequest) = [] ∧
    (BuilderState.mk true true [] [] [] [SlaveBuilderSlot.mk "w1"
      SBState.IDLE] [] [] false 0).running = true ∧
    ((maybeStartBuild "b" 1 2 "w1" 5 [] (StartEnv.mk true true true true true)
      (BuilderState.mk true true [] [] [] [SlaveBuilderSlot.mk "w1"
        SBState.IDLE] [] [] false 0)).started = false ∧
    (maybeStartBuild "b" 1 2 "w1" 5 [] (StartEnv.mk true true true true true)
      (BuilderState.mk true true [] [] [] [SlaveBuilderSlot.mk "w1"
        SBState.IDLE] [] [] false 0)).state.builds_db =
      (BuilderState.mk true true [] [] [] [SlaveBuilderSlot.mk "w1"
        SBState.IDLE] [] [] false 0).builds_db ∧
    StartEv.prepareCall ∈
      (maybeStartBuild "b" 1 2 "w1" 5 [] (StartEnv.mk true true true true true)
        (BuilderState.mk true true [] [] [] [SlaveBuilderSlot.mk "w1"
          SBState.IDLE] [] [] false 0)).trace) :=
  ⟨rfl, rfl,
   maybeStartBuild_empty_returns_false "b" 1 2 "w1" 5 []
     (StartEnv.mk true true true true true)
     (BuilderState.mk true true [] [] [] [SlaveBuilderSlot.mk "w1"
       SBState.IDLE] [] [] false 0) rfl rfl⟩

/-- C5: every successful start persists exactly one build row, and that
row carries the id of the last request of the ordered request list as
its `buildrequestid`, together with the resolved builder, worker and
master ids and `state_strings = ["created"]`. -/
theorem maybeStartBuild_persists_last_request (bname : String)
    (builderid masterid : Nat) (w : String) (buildslaveid : Nat)
    (breqs : List BuildRequest) (env : StartEnv) (s : BuilderState)
    (htrue : (maybeStartBuild bname builderid masterid w buildslaveid breqs
      env s).started = true) :
    breqs.getLast?.isSome = true ∧
    (maybeStartBuild bname builderid masterid w buildslaveid breqs env
      s).state.builds_db =
      s.builds_db ++
        (breqs.getLast?.map (fun req => BuildRow.mk builderid req.id
          buildslaveid masterid ["created"])).toList := by
  by_cases hrun : s.running
  · rcases env with ⟨p, pi, r, a, c⟩
    unfold maybeStartBuild startBuildFor at htrue ⊢
    cases hbl : breqs.getLast? <;>
      cases p <;> cases pi <;> cases r <;> cases a <;> cases c <;>
      simp_all [run_cleanups]
  · simp_all [maybeStartBuild]

/-- C5 witness: a successful start with two merged requests persists the
row for the last request (id 43) only. -/
theorem maybeStartBuild_persists_last_request_witness :
    (maybeStartBuild "b" 1 2 "w1" 5
      [BuildRequest.mk 42 7 "c", BuildRequest.mk 43 7 "c"]
      (StartEnv.mk true true true true true)
      (BuilderState.mk true true [] [] [] [SlaveBuilderSlot.mk "w1"
        SBState.IDLE] [42, 43] [] false 0)).started = true ∧
    (([BuildRequest.mk 42 7 "c", BuildRequest.mk 43 7 "c"] :
        List BuildRequest).getLast?.isSome = true ∧
    (maybeStartBuild "b" 1 2 "w1" 5
      [BuildRequest.mk 42 7 "c", BuildRequest.mk 43 7 "c"]
      (StartEnv.mk true true true true true)
      (BuilderState.mk true true [] [] [] [SlaveBuilderSlot.mk "w1"
        SBState.IDLE] [42, 43] [] false 0)).state.builds_db =
      (BuilderState.mk true true [] [] [] [SlaveBuilderSlot.mk "w1"
        SBState.IDLE] [42, 43] [] false 0).builds_db ++
        (([BuildRequest.mk 42 7 "c", BuildRequest.mk 43 7 "c"] :
            List BuildRequest).getLast?.map
          (fun req => BuildRow.mk 1 req.id 5 2 ["created"])).toList) :=
  ⟨by decide,
   maybeStartBuild_persists_last_request "b" 1 2 "w1" 5
     [BuildRequest.mk 42 7 "c", BuildRequest.mk 43 7 "c"]
     (StartEnv.mk true true true true true)
     (BuilderState.mk true true [] [] [] [SlaveBuilderSlot.mk "w1"
       SBState.IDLE] [42, 43] [] false 0) (by decide)⟩

/-- C2: on any terminal result other than RETRY, the completion trace is
`finishBuild`, then `completeBuildRequests` with all of the build's
request ids, then exactly one complete message per request on routing
key `('buildrequest', str(bsid), str(builderid), str(brid), 'complete')`
with body `{brid, bsid, buildername, builderid, complete_at, results}`,
all of which precede every `maybeBuildsetComplete` call; and
`maybeBuildsetComplete` is called exactly once per distinct bsid of the
build's requests (the call list is duplicate-free and covers exactly the
bsids of the requests). -/
theorem buildFinished_completion_messages (requests : List BuildRequest)
    (results bid builderid ts buildId : Nat) (s : BuilderState)
    (hr : results ≠ RETRY) :
    (buildFinished requests results bid builderid ts buildId s).2 =
      FinEv.finishBuildCall bid results ::
      FinEv.completeBuildRequestsCall (requests.map (fun br => br.id))
        results ::
      (requests.map (fun br =>
        FinEv.mqProduce
          ["buildrequest", toString br.bsid, toString builderid,
           toString br.id, "complete"]
          (BRCompleteMsg.mk br.id br.bsid br.buildername builderid ts
            results))
       ++ (distinctBsids [] requests).map FinEv.maybeBuildsetCompleteCall) ∧
    (distinctBsids [] requests).Nodup ∧
    (distinctBsids [] requests).toFinset =
      (requests.map (fun br => br.bsid)).toFinset := by
  refine ⟨?_, distinctBsids_nodup requests [], ?_⟩
  · simp [buildFinished, hr, notify_completions]
  · ext b
    simp [List.mem_toFinset, mem_distinctBsids]

/-- C2 witness: a build for requests 42, 43 (buildset 7) and 44
(buildset 8) finishing with SUCCESS: two-element duplicate-free
buildset-completion call list {7, 8}, all complete messages first. -/
theorem buildFinished_completion_messages_witness :
    SUCCESS ≠ RETRY ∧
    ((buildFinished [BuildRequest.mk 42 7 "c", BuildRequest.mk 43 7 "c",
        BuildRequest.mk 44 8 "c"] SUCCESS 9 1 100 0
        (BuilderState.mk true true [0] [] [] [] [42, 43, 44] [] false 1)).2 =
      FinEv.finishBuildCall 9 SUCCESS ::
      FinEv.completeBuildRequestsCall
        (([BuildRequest.mk 42 7 "c", BuildRequest.mk 43 7 "c",
           BuildRequest.mk 44 8 "c"] : List BuildRequest).map
          (fun br => br.id)) SUCCESS ::
      (([BuildRequest.mk 42 7 "c", BuildRequest.mk 43 7 "c",
         BuildRequest.mk 44 8 "c"] : List BuildRequest).map (fun br =>
        FinEv.mqProduce
          ["buildrequest", toString br.bsid, toString (1 : Nat),
           toString br.id, "complete"]
          (BRCompleteMsg.mk br.id br.bsid br.buildername 1 100 SUCCESS))
       ++ (distinctBsids [] [BuildRequest.mk 42 7 "c",
            BuildRequest.mk 43 7 "c", BuildRequest.mk 44 8 "c"]).map
          FinEv.maybeBuildsetCompleteCall) ∧
    (distinctBsids [] [BuildRequest.mk 42 7 "c", BuildRequest.mk 43 7 "c",
      BuildRequest.mk 44 8 "c"]).Nodup ∧
    (distinctBsids [] [BuildRequest.mk 42 7 "c", BuildRequest.mk 43 7 "c",
      BuildRequest.mk 44 8 "c"]).toFinset =
      (([BuildRequest.mk 42 7 "c", BuildRequest.mk 43 7 "c",
         BuildRequest.mk 44 8 "c"] : List BuildRequest).map
        (fun br => br.bsid)).toFinset) :=
  ⟨by decide,
   buildFinished_completion_messages
     [BuildRequest.mk 42 7 "c", BuildRequest.mk 43 7 "c",
      BuildRequest.mk 44 8 "c"] SUCCESS 9 1 100 0
     (BuilderState.mk true true [0] [] [] [] [42, 43, 44] [] false 1)
     (by decide)⟩

/-- C3 (code bug, evaluated at the failing input): a build for requests
10 and 11 of buildset 3 finishing with RETRY unclaims both request ids
and produces neither a complete message nor a `maybeBuildsetComplete`
call — but it also emits no request-unclaimed signal: the `notify`
callback calls the non-existent `_msg_buildrequests_unclaimed`, whose
AttributeError is swallowed and logged by the errback. -/
theorem buildFinished_retry_no_unclaimed_signal :
    (buildFinished [BuildRequest.mk 10 3 "c", BuildRequest.mk 11 3 "c"]
      RETRY 9 1 100 0
      (BuilderState.mk true true [0] [] [] [] [10, 11] [] false 1)).2 =
      [FinEv.finishBuildCall 9 RETRY,
       FinEv.unclaimBuildRequestsCall [10, 11],
       FinEv.errorLogged "while resubmitting a build request"] ∧
    FinEv.msgBuildrequestsUnclaimed 10 ∉
      (buildFinished [BuildRequest.mk 10 3 "c", BuildRequest.mk 11 3 "c"]
        RETRY 9 1 100 0
        (BuilderState.mk true true [0] [] [] [] [10, 11] [] false 1)).2 ∧
    FinEv.msgBuildrequestsUnclaimed 11 ∉
      (buildFinished [BuildRequest.mk 10 3 "c", BuildRequest.mk 11 3 "c"]
        RETRY 9 1 100 0
        (BuilderState.mk true true [0] [] [] [] [10, 11] [] false 1)).2 := by
  decide

end Buildbot
